import Mathlib

/-!
Verification of the TikTok downloader's extraction-and-fallback pipeline.

The JavaScript source is shallowly embedded: the JSON shapes that the code
reads are typed structures whose `Option` fields model absent (`undefined`)
values, thrown exceptions become `Except`/`Option` results, and the network,
DOM and filesystem collaborators are modelled by explicit environment records
(did the fetch succeed, what did the API return, does writing succeed).
JavaScript truthiness on the string and list fields read by the code is made
explicit: an absent value and the empty string are falsy, an array is truthy
even when empty.  The process-local timezone that `Date#getDate`/`getMonth`/
`getFullYear` consult is passed explicitly as an offset in minutes.
-/

/-! ## JSON data shapes read by the primary extractor (dataExtractor.js) -/

/-- Shape of `itemStruct.author` as read by the code: both fields may be absent. -/
structure AuthorObj where
  uniqueId : Option String
  nickname : Option String
  deriving Repr, DecidableEq

/-- Shape of `bitrateInfo[i].PlayAddr`: carries the `UrlList` array (possibly absent). -/
structure PlayAddrObj where
  UrlList : Option (List String)
  deriving Repr, DecidableEq

/-- One entry of `video.bitrateInfo`. -/
structure BitrateEntry where
  PlayAddr : Option PlayAddrObj
  deriving Repr, DecidableEq

/-- Shape of `itemStruct.video`: the bitrate-variant list and the direct `playAddr`. -/
structure VideoObj where
  bitrateInfo : Option (List BitrateEntry)
  playAddr : Option String
  deriving Repr, DecidableEq

/-- Shape of `itemInfo.itemStruct` with the fields the extractor reads. -/
structure ItemStruct where
  id : Option String
  createTime : Option Int
  desc : Option String
  author : Option AuthorObj
  video : Option VideoObj
  deriving Repr, DecidableEq

/-- Shape of `videoDetail.itemInfo`. -/
structure ItemInfo where
  itemStruct : Option ItemStruct
  deriving Repr, DecidableEq

/-- Shape of `__DEFAULT_SCOPE__["webapp.video-detail"]`. -/
structure VideoDetail where
  itemInfo : Option ItemInfo
  deriving Repr, DecidableEq

/-- The parsed top-level JSON; `videoDetail = none` models an absent (or
falsy) `__DEFAULT_SCOPE__?.["webapp.video-detail"]` chain. -/
structure ParsedJSON where
  videoDetail : Option VideoDetail
  deriving Repr, DecidableEq

/-! ## dataExtractor.js -/

/-- Embedding of `parseVideoDetail` (dataExtractor.js:18): throws when the video-detail
container is absent. -/
def parseVideoDetail (parsedJSON : ParsedJSON) : Except String VideoDetail :=
  match parsedJSON.videoDetail with
  | some videoDetail => .ok videoDetail
  | none => .error "Video data not found in JSON response"

/-- Embedding of `getItemStruct` (dataExtractor.js:33): reads `videoDetail.itemInfo?.itemStruct`. -/
def getItemStruct (videoDetail : VideoDetail) : Except String ItemStruct :=
  match videoDetail.itemInfo with
  | some itemInfo =>
    match itemInfo.itemStruct with
    | some itemStruct => .ok itemStruct
    | none => .error "Item structure not found in JSON response"
  | none => .error "Item structure not found in JSON response"

/-- Embedding of `validateAuthorAndVideo` (dataExtractor.js:48): requires both sub-objects. -/
def validateAuthorAndVideo (itemStruct : ItemStruct) :
    Except String (AuthorObj × VideoObj) :=
  match itemStruct.author, itemStruct.video with
  | some author, some video => .ok (author, video)
  | _, _ => .error "Author or video data missing in response"

/-- The tier-1 lookup of `extractVideoUrl` (dataExtractor.js:69-74):
`video.bitrateInfo?.length > 0` and then the truthiness test
`playAddr?.UrlList?.[0]` — a missing list, an empty list, or an empty first
string are all falsy and yield `none`. -/
def bitrateFirstUrl (video : VideoObj) : Option String :=
  match video.bitrateInfo with
  | some (b :: _) =>
    match b.PlayAddr with
    | some playAddr =>
      match playAddr.UrlList with
      | some (u :: _) => if u = "" then none else some u
      | _ => none
    | none => none
  | _ => none

/-- Embedding of `extractVideoUrl` (dataExtractor.js:67): tier-1 bitrate URL, else the
direct `playAddr` when truthy (a non-empty string), else a thrown error. -/
def extractVideoUrl (video : VideoObj) : Except String String :=
  match bitrateFirstUrl video with
  | some u => .ok u
  | none =>
    match video.playAddr with
    | some p => if p = "" then .error "Video URL not found in response" else .ok p
    | none => .error "Video URL not found in response"

/-- The normalized record assembled by `extractVideoDataFromJson`
(dataExtractor.js:111-118) and by the API fallback in `processVideoPost`
(videoProcessor.js:84-89).  Fields absent from the source object stay
`none` (JavaScript `undefined`). -/
structure VideoData where
  authorUniqueId : Option String
  authorNickname : Option String
  videoId : Option String
  createTime : Option Int
  videoUrl : Option String
  description : Option String
  deriving Repr, DecidableEq

/-- Embedding of `extractVideoDataFromJson` (dataExtractor.js:103): the whole pipeline runs
inside one `try`; `JSON.parse` failure (the `Except.error` input) and every
error thrown by a step are caught and turned into `null` (`none`). -/
def extractVideoDataFromJson (parseRes : Except Unit ParsedJSON) : Option VideoData :=
  match parseRes with
  | .error _ => none
  | .ok parsedJSON =>
    match parseVideoDetail parsedJSON with
    | .error _ => none
    | .ok videoDetail =>
      match getItemStruct videoDetail with
      | .error _ => none
      | .ok itemStruct =>
        match validateAuthorAndVideo itemStruct with
        | .error _ => none
        | .ok (author, video) =>
          match extractVideoUrl video with
          | .error _ => none
          | .ok videoUrl =>
            some { authorUniqueId := author.uniqueId
                   authorNickname := author.nickname
                   videoId := itemStruct.id
                   createTime := itemStruct.createTime
                   videoUrl := some videoUrl
                   description := itemStruct.desc }

/-! ## dateUtils.js

`formatUploadDate` builds `new Date(timestamp * 1000)` and reads the
local-calendar day, month and year.  The civil-date computation is embedded
with the environment's UTC offset (minutes) passed explicitly; the
day/month/year arithmetic is the standard days-to-civil conversion. -/

/-- Convert a count of days since 1970-01-01 to `(year, month, day)` in the
proleptic Gregorian calendar (the computation `Date#getFullYear` /
`getMonth() + 1` / `getDate` perform on the local-time day number). -/
def civilFromDays (z0 : Int) : Int × Int × Int :=
  let z := z0 + 719468
  let era := Int.fdiv z 146097
  let doe := z - era * 146097
  let yoe := Int.fdiv (doe - Int.fdiv doe 1460 + Int.fdiv doe 36524 - Int.fdiv doe 146096) 365
  let y := yoe + era * 400
  let doy := doe - (365 * yoe + Int.fdiv yoe 4 - Int.fdiv yoe 100)
  let mp := Int.fdiv (5 * doy + 2) 153
  let d := doy - Int.fdiv (153 * mp + 2) 5 + 1
  let m := mp + (if mp < 10 then 3 else -9)
  (y + (if m ≤ 2 then 1 else 0), m, d)

/-- Local civil date of a Unix timestamp (seconds) at a UTC offset in minutes. -/
def localCivilDate (timestamp : Int) (tzOffsetMin : Int) : Int × Int × Int :=
  civilFromDays (Int.fdiv (timestamp + tzOffsetMin * 60) 86400)

/-- Embedding of `String#padStart(2, "0")` applied to a number's decimal representation. -/
def pad2 (n : Int) : String :=
  let s := toString n
  if s.length < 2 then "0" ++ s else s

/-- Embedding of `formatUploadDate` (dateUtils.js:24): `DDMMYYYY` of the local calendar
date of `timestamp * 1000`, day and month zero-padded to two digits. -/
def formatUploadDate (timestamp : Int) (tzOffsetMin : Int) : String :=
  let ymd := localCivilDate timestamp tzOffsetMin
  pad2 ymd.2.2 ++ pad2 ymd.2.1 ++ toString ymd.1

/-- A JavaScript template literal renders `undefined` as `"undefined"`. -/
def optStr : Option String → String
  | some s => s
  | none => "undefined"

/-- Variant of `formatUploadDate` applied to a possibly-`undefined` timestamp:
`new Date(undefined * 1000)` is an invalid date and every getter yields
`NaN`, so the formatted date is `"NaNNaNNaN"`. -/
def formatUploadDateOpt : Option Int → Int → String
  | some t, tz => formatUploadDate t tz
  | none, _ => "NaNNaNNaN"

/-- The video filename template of `downloadVideo` (downloadService) and
`generateVideoFileName`: `{author}_video_{DDMMYYYY}_{id}.mp4`. -/
def generateVideoFileName (authorUniqueId : String) (createTime : Int)
    (videoId : String) (tzOffsetMin : Int) : String :=
  authorUniqueId ++ "_video_" ++ formatUploadDate createTime tzOffsetMin ++
    "_" ++ videoId ++ ".mp4"

/-! ## URL validation (urlUtils.js + config/constants.js)

`TIKTOK_URL_REGEX` is `^https?:\/\/(www\.|vm\.)?(tiktok\.com)\/?(.*)$`.
Because `\/?(.*)` accepts every remaining character sequence without a line
terminator (JavaScript `.` matches neither `\n` nor `\r`, and `$` without the
`m` flag anchors at the end of input), `test` succeeds exactly when the input
starts with `http://` or `https://`, then optionally `www.` or `vm.`, then the
literal text `tiktok.com`, and the rest of the string is line-terminator
free. -/

/-- Anchored literal matching: returns the rest of `s` after the pattern `p`
when `p` matches at the start, `none` otherwise. -/
def matchStart : List Char → List Char → Option (List Char)
  | [], s => some s
  | _ :: _, [] => none
  | a :: p, b :: s => if a = b then matchStart p s else none

/-- No line terminator (`\n`, `\r`) occurs in the character list; this is what
`(.*)$` requires of the text after the matched host. -/
def lineTermFree (l : List Char) : Bool :=
  l.all fun c => !(c == '\n' || c == '\r')

/-- One anchored alternative of the regex: the literal `p` at the start of
`s`, followed by line-terminator-free text up to the end. -/
def anchoredTest (p s : String) : Bool :=
  match matchStart p.data s.data with
  | some rest => lineTermFree rest
  | none => false

/-- Embedding of `TIKTOK_URL_REGEX.test` (config/constants.js:28): try every combination of
scheme (`http`, `https`) and optional subdomain (`www.`, `vm.`). -/
def tiktokURLRegexTest (s : String) : Bool :=
  (["http://", "https://"]).any fun scheme =>
    (["", "www.", "vm."]).any fun sub =>
      anchoredTest (scheme ++ sub ++ "tiktok.com") s

/-- Embedding of `validateURL` (urlUtils.js:151) restricted to string input: `!url`
rejects the empty string, then the regex decides. -/
def validateURL (url : String) : Bool :=
  if url = "" then false else tiktokURLRegexTest url

/-- A JavaScript value passed to `validateURL`: either a string or some
non-string value (`typeof url !== "string"`). -/
inductive JsInput where
  | str (s : String)
  | nonString
  deriving Repr, DecidableEq

/-- Embedding of `validateURL` (urlUtils.js:151) on an arbitrary JavaScript value:
non-strings and the empty string are rejected before the regex runs. -/
def validateURLJs : JsInput → Bool
  | .str s => validateURL s
  | .nonString => false

/-- The authority (host) component of an absolute http(s) URL: the text
between `scheme://` and the first `/`, `?` or `#`.  Used to state which host
a URL actually addresses. -/
def urlHost (s : String) : Option String :=
  let hostEnd : Char → Bool := fun c => !(c == '/' || c == '?' || c == '#')
  match matchStart "https://".data s.data with
  | some rest => some ⟨rest.takeWhile hostEnd⟩
  | none =>
    match matchStart "http://".data s.data with
    | some rest => some ⟨rest.takeWhile hostEnd⟩
    | none => none

/-! ## apiService.js — the Fallback Resolver's transport and normalization -/

/-- Shape of `result.author` of the fallback API. -/
structure ApiAuthor where
  username : Option String
  deriving Repr, DecidableEq

/-- Shape of `result.video` of the fallback API: `playAddr` is an array of candidate
play URLs (possibly absent). -/
structure ApiVideo where
  playAddr : Option (List String)
  deriving Repr, DecidableEq

/-- Shape of `result` of the fallback API response. -/
structure ApiResult where
  type : Option String
  id : Option String
  createTime : Option Int
  author : Option ApiAuthor
  video : Option ApiVideo
  images : Option (List String)
  deriving Repr, DecidableEq

/-- The fallback API's JSON body: `status` plus the `result` payload. -/
structure ApiResponse where
  status : Option String
  result : Option ApiResult
  deriving Repr, DecidableEq

/-- Embedding of `getMediaInfoFromAPI` (apiService.js:40).  The argument is the outcome of
the HTTP call (`Except.error` = transport failure, which axios throws and the
function rethrows).  A body whose `status` is not `"success"` is rejected;
otherwise `response.data.result` is returned as-is (it may be absent). -/
def getMediaInfoFromAPI (transport : Except String ApiResponse) :
    Except String (Option ApiResult) :=
  match transport with
  | .error e => .error e
  | .ok resp =>
    if resp.status = some "success" then .ok resp.result
    else .error ("API return status: " ++ optStr resp.status)

/-! ## videoProcessor.js -/

/-- What the fetched post page offers to the primary path: the
`#__UNIVERSAL_DATA_FOR_REHYDRATION__` element may be missing, present but
empty, or carry raw JSON whose parse outcome is given. -/
inductive PagePrimary where
  | noElement
  | emptyElement
  | raw (parseRes : Except Unit ParsedJSON)

/-- The primary-extraction result offered by a fetched page
(videoProcessor.js:51-67): `extractVideoDataFromJson` runs only when the
element and its raw JSON text are present. -/
def pagePrimaryData : PagePrimary → Option VideoData
  | .raw parseRes => extractVideoDataFromJson parseRes
  | _ => none

/-- External-collaborator outcomes for one video URL: the page fetch
(`handleHtml`), the fallback API transport, and downloading/writing of the
media bytes. -/
structure VideoEnv where
  fetchHtml : Except String PagePrimary
  apiResp : Except String ApiResponse
  downloadOk : Bool

/-- Terminal outcome of `processVideoPost` for one URL: a downloaded file
(`direct` records which extraction method produced it) or a caught, logged
failure. -/
inductive VideoOutcome where
  | downloaded (direct : Bool) (fileName : String)
  | failed (msg : String)
  deriving Repr, DecidableEq

/-- Observable record of one `processVideoPost` run: its outcome, how many
fallback-API calls were made, whether the primary extractor was invoked, and
the descriptor handed to `downloadVideo` (if any). -/
structure VideoRun where
  outcome : VideoOutcome
  apiCalls : Nat
  primaryAttempted : Bool
  downloadAttempted : Option VideoData
  deriving Repr, DecidableEq

/-- The filename template of `downloadVideo` (downloadService:97-98):
`{authorUniqueId}_video_{DDMMYYYY}_{videoId}.mp4`, with `undefined` fields
rendered as the template literal renders them. -/
def videoNameOf (videoData : VideoData) (tzOffsetMin : Int) : String :=
  optStr videoData.authorUniqueId ++ "_video_" ++
    formatUploadDateOpt videoData.createTime tzOffsetMin ++ "_" ++
    optStr videoData.videoId ++ ".mp4"

/-- Embedding of the body of `downloadVideo` (downloadService:92-106): fetch
`videoData.videoUrl` with the post URL as referer, then write the file named
by `videoNameOf`.  An `undefined` URL makes the transport fetch fail;
`downloadOk` models transport and filesystem success. -/
def downloadVideo (videoData : VideoData) (downloadOk : Bool) (tzOffsetMin : Int) :
    Except String String :=
  match videoData.videoUrl with
  | none => .error "download failed"
  | some _ =>
    if downloadOk then .ok (videoNameOf videoData tzOffsetMin)
    else .error "download failed"

/-- Whether the page made the code invoke `extractVideoDataFromJson`
(videoProcessor.js:56-58: the element and its raw text must be present). -/
def pageAttempted : PagePrimary → Bool
  | .raw _ => true
  | _ => false

/-- The direct-extraction branch of `processVideoPost`
(videoProcessor.js:59-64 and 93): download using the record produced by the
primary extractor; no fallback-API call is made. -/
def directRun (videoData : VideoData) (downloadOk : Bool) (tzOffsetMin : Int)
    (primaryAttempted : Bool) : VideoRun :=
  match downloadVideo videoData downloadOk tzOffsetMin with
  | .ok fileName => ⟨.downloaded true fileName, 0, primaryAttempted, some videoData⟩
  | .error e => ⟨.failed e, 0, primaryAttempted, some videoData⟩

/-- The normalized record the fallback branch builds
(videoProcessor.js:84-89): `author.username`, `id`, `createTime` and
`playAddr[0]` (`undefined` when the array is empty). -/
def apiVideoData (r : ApiResult) (a : ApiAuthor) (urls : List String) : VideoData :=
  { authorUniqueId := a.username
    authorNickname := none
    videoId := r.id
    createTime := r.createTime
    videoUrl := urls.head?
    description := none }

/-- The fallback branch of `processVideoPost` (videoProcessor.js:70-93),
applied to the outcome of the single `getMediaInfoFromAPI` call: reject a
result that is not a video with a present `playAddr` array (an empty array
is truthy and passes the `!videoData.video.playAddr` check), read
`author.username` (a `TypeError` when `author` is absent), build the
normalized record with `playAddr[0]`, and download. -/
def apiFallbackRun (apiOutcome : Except String (Option ApiResult))
    (downloadOk : Bool) (tzOffsetMin : Int) (primaryAttempted : Bool) : VideoRun :=
  match apiOutcome with
  | .error e => ⟨.failed e, 1, primaryAttempted, none⟩
  | .ok none => ⟨.failed "TypeError: videoData is undefined", 1, primaryAttempted, none⟩
  | .ok (some r) =>
    if r.type = some "video" then
      match r.video with
      | none => ⟨.failed "Invalid video data from API", 1, primaryAttempted, none⟩
      | some v =>
        match v.playAddr with
        | none => ⟨.failed "Invalid video data from API", 1, primaryAttempted, none⟩
        | some urls =>
          match r.author with
          | none => ⟨.failed "TypeError: author is undefined", 1, primaryAttempted, none⟩
          | some a =>
            match downloadVideo (apiVideoData r a urls) downloadOk tzOffsetMin with
            | .ok fileName =>
              ⟨.downloaded false fileName, 1, primaryAttempted, some (apiVideoData r a urls)⟩
            | .error e => ⟨.failed e, 1, primaryAttempted, some (apiVideoData r a urls)⟩
    else ⟨.failed "Invalid video data from API", 1, primaryAttempted, none⟩

/-- Embedding of `processVideoPost` (videoProcessor.js:44): try the primary extractor on
the fetched page; on `null`, call the fallback API exactly once and run the
fallback branch.  Every thrown error is caught at the bottom of the
function, so the run itself never throws. -/
def processVideoPost (env : VideoEnv) (url : String) (tzOffsetMin : Int) : VideoRun :=
  match env.fetchHtml with
  | .error e => ⟨.failed e, 0, false, none⟩
  | .ok page =>
    match pagePrimaryData page with
    | some videoData => directRun videoData env.downloadOk tzOffsetMin (pageAttempted page)
    | none =>
      apiFallbackRun (getMediaInfoFromAPI env.apiResp) env.downloadOk tzOffsetMin
        (pageAttempted page)

/-! ## downloadService `downloadImages` and photoProcessor.js -/

/-- External-collaborator outcomes for one photo URL: the fallback API
transport and, per image index (0-based), whether its fetch-and-write
succeeds. -/
structure PhotoEnv where
  apiResp : Except String ApiResponse
  imageFetchOk : Nat → Bool

/-- Observable record of one `processPhotoPost` run.  `reportedSuccess` is
whether the final "All images successfully downloaded" log line runs;
`imageErrorLogged` is whether `downloadImages`' own catch block logged an
error; `failMsg` is the error caught by `processPhotoPost` itself. -/
structure PhotoRun where
  apiCalls : Nat
  written : List String
  reportedSuccess : Bool
  imageErrorLogged : Bool
  failMsg : Option String
  deriving Repr, DecidableEq

/-- The loop of `downloadImages` (downloadService:46-66): images are fetched
and written sequentially; filenames append the 1-based index.  The first
failing fetch jumps to the catch block, which logs and returns — nothing
after the failing index is written, and no error is rethrown.  Returns the
written filenames and whether a failure was caught. -/
def downloadImagesGo (imageFetchOk : Nat → Bool) (authorId dateStr imageId : String) :
    Nat → List String → List String × Bool
  | _, [] => ([], false)
  | i, _ :: rest =>
    if imageFetchOk i then
      let fileName := authorId ++ "_image_" ++ dateStr ++ "_" ++ imageId ++
        "_" ++ toString (i + 1) ++ ".jpg"
      let r := downloadImagesGo imageFetchOk authorId dateStr imageId (i + 1) rest
      (fileName :: r.1, r.2)
    else ([], true)

/-- Embedding of `downloadImages` (downloadService:39): iterate the image URLs from index
0; the date string is `formatUploadDate(timestamp)`. -/
def downloadImages (imageFetchOk : Nat → Bool) (imageUrls : List String)
    (timestamp : Option Int) (authorId imageId : String) (tzOffsetMin : Int) :
    List String × Bool :=
  downloadImagesGo imageFetchOk authorId (formatUploadDateOpt timestamp tzOffsetMin)
    imageId 0 imageUrls

/-- Embedding of `processPhotoPost` (photoProcessor.js:35): one fallback-API call, reject
non-image results and absent/empty image lists, then `downloadImages`.
Because `downloadImages` swallows its own errors, the success log line runs
whenever the data validation passed. -/
def processPhotoPost (env : PhotoEnv) (url : String) (tzOffsetMin : Int) : PhotoRun :=
  match getMediaInfoFromAPI env.apiResp with
  | .error e => ⟨1, [], false, false, some e⟩
  | .ok none => ⟨1, [], false, false, some "TypeError: photoData is undefined"⟩
  | .ok (some r) =>
    if r.type = some "image" then
      match r.images with
      | none => ⟨1, [], false, false, some "Invalid or missing photo data"⟩
      | some [] => ⟨1, [], false, false, some "Invalid or missing photo data"⟩
      | some (u :: us) =>
        match r.author with
        | none => ⟨1, [], false, false, some "TypeError: author is undefined"⟩
        | some a =>
          let dl := downloadImages env.imageFetchOk (u :: us) r.createTime
            (optStr a.username) (optStr r.id) tzOffsetMin
          ⟨1, dl.1, true, dl.2, none⟩
    else ⟨1, [], false, false, some "Invalid or missing photo data"⟩

/-! ## index.js — the batch orchestrator -/

/-- Embedding of `url.includes(pat)`: substring test over the characters. -/
def listHasSub (pat : List Char) : List Char → Bool
  | [] => (matchStart pat []).isSome
  | c :: rest => (matchStart pat (c :: rest)).isSome || listHasSub pat rest

/-- Embedding of `String#includes` as used by `url.includes("/photo/")` (index.js:67). -/
def strIncludes (s pat : String) : Bool :=
  listHasSub pat.data s.data

/-- Per-URL collaborator outcomes for a batch run. -/
structure UrlEnv where
  videoEnv : VideoEnv
  photoEnv : PhotoEnv

/-- One entry of the batch trace: the URL was rejected by validation, or
processed by the video or photo flow.  `delayed` records whether the 2000 ms
pacing delay ran before this URL's processing. -/
inductive Step where
  | invalid (url : String)
  | video (url : String) (delayed : Bool) (run : VideoRun)
  | photo (url : String) (delayed : Bool) (run : PhotoRun)

/-- URL of a trace step. -/
def stepUrl : Step → String
  | .invalid u => u
  | .video u _ _ => u
  | .photo u _ _ => u

/-- Whether the step is a validation rejection. -/
def stepIsInvalid : Step → Bool
  | .invalid _ => true
  | _ => false

/-- Whether the pacing delay ran before this step. -/
def stepDelayed : Step → Bool
  | .invalid _ => false
  | .video _ d _ => d
  | .photo _ d _ => d

/-- The body of the batch loop (index.js:54-75) for the URL at position `i`:
invalid URLs are logged and skipped; otherwise the delay is keyed on
`urls.indexOf(url) > 0` (the URL's first occurrence in the whole batch), and
the URL is routed to the photo flow when it contains `"/photo/"` and to the
video flow otherwise.  Both processors catch their own errors, so the loop's
`catch` never aborts the batch. -/
def stepFor (allUrls : List String) (envs : Nat → UrlEnv) (tzOffsetMin : Int)
    (i : Nat) (url : String) : Step :=
  if validateURL url then
    let delayed := decide (0 < List.indexOf url allUrls)
    if strIncludes url "/photo/" then
      .photo url delayed (processPhotoPost (envs i).photoEnv url tzOffsetMin)
    else
      .video url delayed (processVideoPost (envs i).videoEnv url tzOffsetMin)
  else .invalid url

/-- The batch loop, accumulating the trace from position `k`. -/
def processUrlsGo (allUrls : List String) (envs : Nat → UrlEnv) (tzOffsetMin : Int) :
    Nat → List String → List Step
  | _, [] => []
  | k, url :: rest =>
    stepFor allUrls envs tzOffsetMin k url ::
      processUrlsGo allUrls envs tzOffsetMin (k + 1) rest

/-- Embedding of `processUrls` (index.js:51): process every URL of the batch in order. -/
def processUrls (urls : List String) (envs : Nat → UrlEnv) (tzOffsetMin : Int) :
    List Step :=
  processUrlsGo urls envs tzOffsetMin 0 urls

/-! ## Concrete instances used by the claim analyses -/

/-- A video object whose bitrate URL list exists but holds the empty string
as its first element, with a non-empty direct `playAddr`. -/
def c1Video : VideoObj :=
  { bitrateInfo := some [{ PlayAddr := some { UrlList := some [""] } }]
    playAddr := some "fallback" }

/-- A fallback-API result for a photo post with three image URLs. -/
def c4Result : ApiResult :=
  { type := some "image", id := some "99", createTime := some 1700000000,
    author := some { username := some "bob" }, video := none,
    images := some ["u1", "u2", "u3"] }

/-- A photo environment in which fetching the second image (0-based index 1)
fails and everything else succeeds. -/
def c4Env : PhotoEnv :=
  { apiResp := Except.ok { status := some "success", result := some c4Result }
    imageFetchOk := fun i => decide (i ≠ 1) }

/-- The same photo environment with every image fetch succeeding. -/
def c4EnvAllOk : PhotoEnv :=
  { c4Env with imageFetchOk := fun _ => true }

/-- A fallback-API video result whose `playAddr` is present but empty. -/
def c5Result : ApiResult :=
  { type := some "video", id := some "7", createTime := some 1700000000,
    author := some { username := some "alice" }, video := some { playAddr := some [] },
    images := none }

/-- A video environment: the page offers no data element, the API answers
success with an empty `playAddr` array, and transport succeeds. -/
def c5Env : VideoEnv :=
  { fetchHtml := Except.ok PagePrimary.noElement
    apiResp := Except.ok { status := some "success", result := some c5Result }
    downloadOk := true }

/-- A fallback-API video result whose `playAddr` is absent. -/
def c5ResultB : ApiResult :=
  { c5Result with video := some { playAddr := none } }

/-- The API response wrapping `c5ResultB`. -/
def c5RespB : ApiResponse :=
  { status := some "success", result := some c5ResultB }

/-- A video environment whose API answer is a video result with no
`playAddr` list. -/
def c5EnvB : VideoEnv :=
  { c5Env with apiResp := Except.ok c5RespB }

/-- A video environment whose fallback API transport succeeds but reports a
non-success status. -/
def c3Env : VideoEnv :=
  { fetchHtml := Except.ok PagePrimary.noElement
    apiResp := Except.ok { status := some "error", result := none }
    downloadOk := true }

/-- A video environment whose page carries the data element with malformed
JSON (the parse fails), so primary extraction yields `null`. -/
def c10Env : VideoEnv :=
  { fetchHtml := Except.ok (PagePrimary.raw (Except.error ()))
    apiResp := Except.error "network error"
    downloadOk := false }

/-- An environment in which every external call fails; used where the
outcome does not matter. -/
def defaultUrlEnv : UrlEnv :=
  { videoEnv := { fetchHtml := Except.error "network error"
                  apiResp := Except.error "network error"
                  downloadOk := false }
    photoEnv := { apiResp := Except.error "network error"
                  imageFetchOk := fun _ => false } }

/-- An item record from which primary extraction fully succeeds. -/
def c7ItemStruct : ItemStruct :=
  { id := some "42", createTime := some 1700000000, desc := some "caption",
    author := some { uniqueId := some "alice", nickname := some "Alice" },
    video := some { bitrateInfo := none, playAddr := some "https://cdn/video.mp4" } }

/-- A page whose embedded JSON parses and yields `c7ItemStruct`. -/
def c7Page : PagePrimary :=
  PagePrimary.raw (Except.ok
    { videoDetail := some { itemInfo := some { itemStruct := some c7ItemStruct } } })

/-- A video environment in which the primary path and the download both
succeed. -/
def c7Env : VideoEnv :=
  { fetchHtml := Except.ok c7Page
    apiResp := Except.error "unused"
    downloadOk := true }

/-- A valid video post URL, used twice in a batch. -/
def c9DupUrl : String := "https://www.tiktok.com/@a/video/1"

/-- A batch that contains the same valid URL twice. -/
def c9Urls : List String := [c9DupUrl, c9DupUrl]

/-- A batch of two distinct valid URLs. -/
def c9UrlsB : List String :=
  ["https://www.tiktok.com/@a/video/1", "https://www.tiktok.com/@b/video/2"]

/-- The per-URL environments used for the batch runs (all calls fail; the
routing and pacing being analysed do not depend on them). -/
def batchEnvs : Nat → UrlEnv := fun _ => defaultUrlEnv

/-- A batch of four URLs whose second entry is not a TikTok URL. -/
def c6Urls : List String :=
  ["https://www.tiktok.com/@user1/video/1111",
   "https://example.com/not-tiktok",
   "https://www.tiktok.com/@user3/photo/3333",
   "https://vm.tiktok.com/ZMxyz/"]

/-- A single-element batch holding a photo URL. -/
def c8PhotoUrl : String := "https://www.tiktok.com/@user3/photo/3333"

/-- The batch containing only `c8PhotoUrl`. -/
def c8Urls : List String := [c8PhotoUrl]

/-! # Theorems -/

/-! ## Shared helper lemmas -/

theorem matchStart_some_iff : ∀ (p s r : List Char), matchStart p s = some r ↔ s = p ++ r := by
  intro p
  induction p with
  | nil =>
    intro s r
    simp [matchStart]
  | cons a p ih =>
    intro s r
    cases s with
    | nil => simp [matchStart]
    | cons b s =>
      by_cases hab : a = b
      · subst hab
        simp [matchStart, ih]
      · simp [matchStart, hab, Ne.symm hab]

theorem anchoredTest_iff (p s : String) :
    anchoredTest p s = true ↔ ∃ rest, s.data = p.data ++ rest ∧ lineTermFree rest = true := by
  unfold anchoredTest
  cases h : matchStart p.data s.data with
  | none =>
    simp only [Bool.false_eq_true, false_iff]
    rintro ⟨rest, hdata, -⟩
    rw [(matchStart_some_iff p.data s.data rest).mpr hdata] at h
    exact Option.noConfusion h
  | some r =>
    have hr := (matchStart_some_iff p.data s.data r).mp h
    constructor
    · intro hl
      exact ⟨r, hr, hl⟩
    · rintro ⟨rest, hdata, hl⟩
      have : r = rest := by
        have h2 := (matchStart_some_iff p.data s.data rest).mpr hdata
        rw [h] at h2
        exact Option.some.inj h2
      rwa [this]

theorem processVideoPost_fetch_err (env : VideoEnv) (url : String) (tz : Int)
    (e : String) (h : env.fetchHtml = Except.error e) :
    processVideoPost env url tz = ⟨.failed e, 0, false, none⟩ := by
  simp only [processVideoPost, h]

theorem processVideoPost_primary (env : VideoEnv) (url : String) (tz : Int)
    (page : PagePrimary) (vd : VideoData)
    (h : env.fetchHtml = Except.ok page) (hp : pagePrimaryData page = some vd) :
    processVideoPost env url tz = directRun vd env.downloadOk tz (pageAttempted page) := by
  simp only [processVideoPost, h, hp]

theorem processVideoPost_fallback (env : VideoEnv) (url : String) (tz : Int)
    (page : PagePrimary)
    (h : env.fetchHtml = Except.ok page) (hp : pagePrimaryData page = none) :
    processVideoPost env url tz =
      apiFallbackRun (getMediaInfoFromAPI env.apiResp) env.downloadOk tz
        (pageAttempted page) := by
  simp only [processVideoPost, h, hp]

theorem downloadVideo_ok_name (vd : VideoData) (ok : Bool) (tz : Int) (fn : String)
    (h : downloadVideo vd ok tz = Except.ok fn) : fn = videoNameOf vd tz := by
  unfold downloadVideo at h
  cases hv : vd.videoUrl <;> rw [hv] at h
  · simp at h
  · cases ok <;> simp at h
    exact h.symm

theorem directRun_downloaded (vd : VideoData) (ok : Bool) (tz : Int) (pa : Bool)
    (direct : Bool) (fn : String)
    (h : (directRun vd ok tz pa).outcome = VideoOutcome.downloaded direct fn) :
    (directRun vd ok tz pa).downloadAttempted = some vd ∧ fn = videoNameOf vd tz := by
  cases hd : downloadVideo vd ok tz with
  | error e => simp [directRun, hd] at h
  | ok fn2 =>
    have hname := downloadVideo_ok_name vd ok tz fn2 hd
    simp only [directRun, hd, VideoOutcome.downloaded.injEq] at h
    refine ⟨?_, ?_⟩
    · simp only [directRun, hd]
    · rw [← h.2]
      exact hname

theorem apiFallbackRun_downloaded (api : Except String (Option ApiResult)) (ok : Bool)
    (tz : Int) (pa : Bool) (direct : Bool) (fn : String)
    (h : (apiFallbackRun api ok tz pa).outcome = VideoOutcome.downloaded direct fn) :
    ∃ d : VideoData, (apiFallbackRun api ok tz pa).downloadAttempted = some d ∧
      fn = videoNameOf d tz := by
  cases api with
  | error e => simp [apiFallbackRun] at h
  | ok orest =>
    cases orest with
    | none => simp [apiFallbackRun] at h
    | some r =>
      by_cases htype : r.type = some "video"
      · cases hv : r.video with
        | none => simp [apiFallbackRun, htype, hv] at h
        | some v =>
          cases hpa : v.playAddr with
          | none => simp [apiFallbackRun, htype, hv, hpa] at h
          | some urls =>
            cases hau : r.author with
            | none => simp [apiFallbackRun, htype, hv, hpa, hau] at h
            | some a =>
              cases hd : downloadVideo (apiVideoData r a urls) ok tz with
              | error e => simp [apiFallbackRun, htype, hv, hpa, hau, hd] at h
              | ok fn2 =>
                have hname := downloadVideo_ok_name (apiVideoData r a urls) ok tz fn2 hd
                simp only [apiFallbackRun, htype, hv, hpa, hau, hd, if_pos,
                  VideoOutcome.downloaded.injEq] at h
                refine ⟨apiVideoData r a urls, ?_, ?_⟩
                · simp only [apiFallbackRun, htype, hv, hpa, hau, hd, if_pos]
                · rw [← h.2]
                  exact hname
      · simp [apiFallbackRun, htype] at h

/-! ## C1 — `extractVideoUrl`'s two-tier fallback -/

/-- C1, counterexample: the claim says that whenever
`bitrateInfo[0].PlayAddr.UrlList` has a first element, that element is
returned.  With `UrlList = [""]` the first element exists but is the empty
string, which is falsy in the truthiness test `playAddr?.UrlList?.[0]`, so
the code consults and returns the direct `playAddr` instead. -/
theorem c1_counterexample :
    c1Video.bitrateInfo = some [{ PlayAddr := some { UrlList := some [""] } }] ∧
    c1Video.playAddr = some "fallback" ∧
    extractVideoUrl c1Video = Except.ok "fallback" ∧
    "fallback" ≠ ("" : String) := by
  refine ⟨rfl, rfl, rfl, by decide⟩

/-- C1, amended: tier 1 returns the first `UrlList` entry only when it is a
non-empty string, and then the direct `playAddr` is never consulted (the
result is the same for every value of `playAddr`); when tier 1 yields
nothing, a non-empty direct `playAddr` is returned; when both tiers fail,
extraction throws the no-URL error. -/
theorem c1_extract_url_two_tier :
    (∀ (video : VideoObj) (b : BitrateEntry) (bs : List BitrateEntry)
        (pa : PlayAddrObj) (u : String) (us : List String),
      video.bitrateInfo = some (b :: bs) → b.PlayAddr = some pa →
      pa.UrlList = some (u :: us) → u ≠ "" →
      ∀ q : Option String, extractVideoUrl { video with playAddr := q } = Except.ok u) ∧
    (∀ (video : VideoObj) (p : String),
      bitrateFirstUrl video = none → video.playAddr = some p → p ≠ "" →
      extractVideoUrl video = Except.ok p) ∧
    (∀ video : VideoObj, bitrateFirstUrl video = none →
      video.playAddr = none ∨ video.playAddr = some "" →
      extractVideoUrl video = Except.error "Video URL not found in response") := by
  refine ⟨?_, ?_, ?_⟩
  · intro video b bs pa u us h1 h2 h3 h4 q
    simp [extractVideoUrl, bitrateFirstUrl, h1, h2, h3, h4]
  · intro video p h1 h2 h3
    simp [extractVideoUrl, h1, h2, h3]
  · intro video h1 h2
    rcases h2 with h2 | h2 <;> simp [extractVideoUrl, h1, h2]

/-- C1, witness: the amended theorem applied at concrete inputs for each of
the three tiers. -/
theorem c1_witness :
    extractVideoUrl { bitrateInfo := some [{ PlayAddr := some { UrlList := some ["a"] } }],
                      playAddr := some "z" } = Except.ok "a" ∧
    extractVideoUrl { bitrateInfo := none, playAddr := some "z" } = Except.ok "z" ∧
    extractVideoUrl { bitrateInfo := none, playAddr := none } =
      Except.error "Video URL not found in response" := by
  refine ⟨?_, ?_, ?_⟩
  · exact c1_extract_url_two_tier.1
      { bitrateInfo := some [{ PlayAddr := some { UrlList := some ["a"] } }],
        playAddr := some "z" }
      _ _ _ _ _ rfl rfl rfl (by decide) (some "z")
  · exact c1_extract_url_two_tier.2.1
      { bitrateInfo := none, playAddr := some "z" } "z" rfl rfl (by decide)
  · exact c1_extract_url_two_tier.2.2
      { bitrateInfo := none, playAddr := none } rfl (Or.inl rfl)

/-! ## C4 — sequential image downloads and the swallowed failure -/

/-- C4: with three image URLs and the second fetch failing, only the first
file is written (sequential abort — this part of the claim matches the
code), `downloadImages`' catch logs the error once, but `processPhotoPost`
still runs its success log line, because `downloadImages` swallows the error
its own documentation says it throws; with all fetches succeeding, exactly
the three 1-based-indexed files are written in input order. -/
theorem c4_failing_run :
    (processPhotoPost c4Env "https://www.tiktok.com/@bob/photo/99" 0).written =
      ["bob_image_14112023_99_1.jpg"] ∧
    (processPhotoPost c4Env "https://www.tiktok.com/@bob/photo/99" 0).imageErrorLogged = true ∧
    (processPhotoPost c4Env "https://www.tiktok.com/@bob/photo/99" 0).reportedSuccess = true ∧
    (processPhotoPost c4EnvAllOk "https://www.tiktok.com/@bob/photo/99" 0).written =
      ["bob_image_14112023_99_1.jpg", "bob_image_14112023_99_2.jpg",
       "bob_image_14112023_99_3.jpg"] := by
  exact ⟨rfl, rfl, rfl, rfl⟩

/-! ## C7 — filename generation and the local timezone -/

/-- C7, counterexample: the video filename is not a function of
`(authorHandle, createdAt, postId)` alone — `Date#getDate` reads the
process-local timezone.  At UTC the claimed example holds, but at UTC+7
(the `WIB` zone the repository's legacy script labels its output with)
timestamp 1700000000 falls on 15 November 2023 and the filename differs. -/
theorem c7_counterexample :
    generateVideoFileName "alice" 1700000000 "42" 0 = "alice_video_14112023_42.mp4" ∧
    generateVideoFileName "alice" 1700000000 "42" (7 * 60) = "alice_video_15112023_42.mp4" ∧
    "alice_video_15112023_42.mp4" ≠ "alice_video_14112023_42.mp4" := by
  refine ⟨rfl, rfl, by decide⟩

/-- C7, amended: given the timezone offset, filename generation is
deterministic and follows the template — every successful download's
filename is `{author}_video_{DDMMYYYY(createdAt)}_{postId}.mp4` built from
the descriptor — and at UTC offset 0 the claim's example date string is
`14112023`. -/
theorem c7_filename_of_descriptor :
    (∀ (env : VideoEnv) (url : String) (tz : Int) (direct : Bool) (fn : String),
      (processVideoPost env url tz).outcome = VideoOutcome.downloaded direct fn →
      ∃ d : VideoData, (processVideoPost env url tz).downloadAttempted = some d ∧
        fn = videoNameOf d tz) ∧
    formatUploadDate 1700000000 0 = "14112023" := by
  constructor
  · intro env url tz direct fn h
    cases hf : env.fetchHtml with
    | error e =>
      rw [processVideoPost_fetch_err env url tz e hf] at h
      simp at h
    | ok page =>
      cases hp : pagePrimaryData page with
      | some vd =>
        rw [processVideoPost_primary env url tz page vd hf hp] at h ⊢
        obtain ⟨h1, h2⟩ :=
          directRun_downloaded vd env.downloadOk tz (pageAttempted page) direct fn h
        exact ⟨vd, h1, h2⟩
      | none =>
        rw [processVideoPost_fallback env url tz page hf hp] at h ⊢
        exact apiFallbackRun_downloaded _ env.downloadOk tz (pageAttempted page) direct fn h
  · rfl

/-- C7, witness: the amended theorem applied to a run whose primary
extraction and download succeed, at UTC offset 0. -/
theorem c7_witness :
    ∃ d : VideoData, (processVideoPost c7Env "u" 0).downloadAttempted = some d ∧
      "alice_video_14112023_42.mp4" = videoNameOf d 0 :=
  c7_filename_of_descriptor.1 c7Env "u" 0 true "alice_video_14112023_42.mp4" rfl

theorem directRun_apiCalls (vd : VideoData) (ok : Bool) (tz : Int) (pa : Bool) :
    (directRun vd ok tz pa).apiCalls = 0 := by
  cases hd : downloadVideo vd ok tz <;> simp [directRun, hd]

theorem apiFallbackRun_apiCalls (api : Except String (Option ApiResult)) (ok : Bool)
    (tz : Int) (pa : Bool) : (apiFallbackRun api ok tz pa).apiCalls = 1 := by
  unfold apiFallbackRun
  (repeat' split) <;> rfl

/-! ## C3 — one fallback call, no retry, terminal bad status -/

/-- C3: the video flow makes at most one fallback-API call in every run;
when the page was fetched and primary extraction yielded no data, it makes
exactly one; and a transport-successful API response whose `status` is not
`"success"` makes that single call fail, terminating the URL's processing
with a logged failure and no download. -/
theorem c3_single_fallback_no_retry :
    (∀ (env : VideoEnv) (url : String) (tz : Int),
      (processVideoPost env url tz).apiCalls ≤ 1) ∧
    (∀ (env : VideoEnv) (url : String) (tz : Int) (page : PagePrimary),
      env.fetchHtml = Except.ok page → pagePrimaryData page = none →
      (processVideoPost env url tz).apiCalls = 1) ∧
    (∀ (env : VideoEnv) (url : String) (tz : Int) (page : PagePrimary) (resp : ApiResponse),
      env.fetchHtml = Except.ok page → pagePrimaryData page = none →
      env.apiResp = Except.ok resp → resp.status ≠ some "success" →
      (processVideoPost env url tz).outcome =
        VideoOutcome.failed ("API return status: " ++ optStr resp.status) ∧
      (processVideoPost env url tz).apiCalls = 1 ∧
      (processVideoPost env url tz).downloadAttempted = none) := by
  refine ⟨?_, ?_, ?_⟩
  · intro env url tz
    cases hf : env.fetchHtml with
    | error e =>
      rw [processVideoPost_fetch_err env url tz e hf]
      exact Nat.zero_le 1
    | ok page =>
      cases hp : pagePrimaryData page with
      | some vd =>
        rw [processVideoPost_primary env url tz page vd hf hp, directRun_apiCalls]
        exact Nat.zero_le 1
      | none =>
        rw [processVideoPost_fallback env url tz page hf hp, apiFallbackRun_apiCalls]
  · intro env url tz page hf hp
    rw [processVideoPost_fallback env url tz page hf hp, apiFallbackRun_apiCalls]
  · intro env url tz page resp hf hp hA hst
    have hapi : getMediaInfoFromAPI env.apiResp =
        Except.error ("API return status: " ++ optStr resp.status) := by
      simp only [getMediaInfoFromAPI, hA]
      rw [if_neg hst]
    rw [processVideoPost_fallback env url tz page hf hp, hapi]
    exact ⟨rfl, rfl, rfl⟩

/-- C3, witness: the theorem applied to a run whose page has no data element
and whose API answers with status `"error"`. -/
theorem c3_witness :
    (processVideoPost c3Env "u" 0).outcome = VideoOutcome.failed "API return status: error" ∧
    (processVideoPost c3Env "u" 0).apiCalls = 1 ∧
    (processVideoPost c3Env "u" 0).downloadAttempted = none :=
  c3_single_fallback_no_retry.2.2 c3Env "u" 0 PagePrimary.noElement
    { status := some "error", result := none } rfl rfl rfl (by decide)

/-! ## C5 — validation of the fallback API's video result -/

/-- C5, counterexample: with a success response of type `"video"` whose
`playAddr` list is present but empty, the resolver does not fail with the
invalid-data error — an empty array is truthy, so the check passes and a
descriptor is handed to the downloader with an `undefined` media URL. -/
theorem c5_counterexample :
    (processVideoPost c5Env "u" 0).downloadAttempted =
      some { authorUniqueId := some "alice", authorNickname := none, videoId := some "7",
             createTime := some 1700000000, videoUrl := none, description := none } ∧
    (processVideoPost c5Env "u" 0).outcome ≠
      VideoOutcome.failed "Invalid video data from API" := by
  refine ⟨rfl, by decide⟩

/-- C5, amended: the resolver rejects a success response whose `result` is
not of type `"video"`, lacks the `video` object, or lacks the `playAddr`
array; when the array is present — even empty — the descriptor built from
`author.username`, `id`, `createTime` and `playAddr[0]` (which is
`undefined` for an empty array) is handed to the downloader. -/
theorem c5_video_result_validation :
    ∀ (env : VideoEnv) (url : String) (tz : Int) (page : PagePrimary)
      (resp : ApiResponse) (r : ApiResult),
      env.fetchHtml = Except.ok page → pagePrimaryData page = none →
      env.apiResp = Except.ok resp → resp.status = some "success" → resp.result = some r →
      ((r.type ≠ some "video" ∨ r.video = none ∨ r.video.bind ApiVideo.playAddr = none) →
        (processVideoPost env url tz).outcome =
          VideoOutcome.failed "Invalid video data from API" ∧
        (processVideoPost env url tz).downloadAttempted = none) ∧
      (∀ (v : ApiVideo) (urls : List String) (a : ApiAuthor),
        r.type = some "video" → r.video = some v → v.playAddr = some urls →
        r.author = some a →
        (processVideoPost env url tz).downloadAttempted = some (apiVideoData r a urls) ∧
        (apiVideoData r a urls).videoUrl = urls.head?) := by
  intro env url tz page resp r hf hp hA hst hr
  have hapi : getMediaInfoFromAPI env.apiResp = Except.ok (some r) := by
    simp only [getMediaInfoFromAPI, hA]
    rw [if_pos hst, hr]
  rw [processVideoPost_fallback env url tz page hf hp, hapi]
  constructor
  · intro hbad
    rcases hbad with htype | hvid | hpad
    · simp [apiFallbackRun, htype]
    · by_cases htype : r.type = some "video"
      · simp [apiFallbackRun, htype, hvid]
      · simp [apiFallbackRun, htype]
    · by_cases htype : r.type = some "video"
      · cases hv : r.video with
        | none => simp [apiFallbackRun, htype, hv]
        | some v =>
          have hpn : v.playAddr = none := by
            rw [hv] at hpad
            simpa using hpad
          simp [apiFallbackRun, htype, hv, hpn]
      · simp [apiFallbackRun, htype]
  · intro v urls a htype hvid hpa hau
    refine ⟨?_, rfl⟩
    cases hd : downloadVideo (apiVideoData r a urls) env.downloadOk tz <;>
      simp [apiFallbackRun, htype, hvid, hpa, hau, hd]

/-- C5, witness: the amended theorem applied to a success response whose
video result has no `playAddr` list; the resolver fails with the
invalid-data error. -/
theorem c5_witness :
    (processVideoPost c5EnvB "u" 0).outcome =
      VideoOutcome.failed "Invalid video data from API" ∧
    (processVideoPost c5EnvB "u" 0).downloadAttempted = none :=
  (c5_video_result_validation c5EnvB "u" 0 PagePrimary.noElement c5RespB c5ResultB
    rfl rfl rfl rfl rfl).1 (Or.inr (Or.inr rfl))

/-! ## C10 — totality of the primary extractor and the null signal -/

/-- C10: every run of `extractVideoDataFromJson` ends in `some` record or
`none` — each error thrown inside the pipeline (parse failure, missing keys,
no URL) is caught by the function's own `try`/`catch` and becomes `none`,
and a returned record always carries a media URL; and in the orchestrator,
given a page whose data element is present, the fallback API is called
exactly when the extractor returned `none`. -/
theorem c10_extractor_total_null_signal :
    (∀ (parseRes : Except Unit ParsedJSON) (v : VideoData),
      extractVideoDataFromJson parseRes = some v → ∃ u : String, v.videoUrl = some u) ∧
    (∀ (env : VideoEnv) (url : String) (tz : Int) (parseRes : Except Unit ParsedJSON),
      env.fetchHtml = Except.ok (PagePrimary.raw parseRes) →
      ((processVideoPost env url tz).apiCalls = 1 ↔
        extractVideoDataFromJson parseRes = none)) := by
  constructor
  · intro parseRes v h
    cases parseRes with
    | error e => simp [extractVideoDataFromJson] at h
    | ok pj =>
      cases hd : parseVideoDetail pj with
      | error e => simp [extractVideoDataFromJson, hd] at h
      | ok vdet =>
        cases hi : getItemStruct vdet with
        | error e => simp [extractVideoDataFromJson, hd, hi] at h
        | ok ist =>
          cases ha : validateAuthorAndVideo ist with
          | error e => simp [extractVideoDataFromJson, hd, hi, ha] at h
          | ok av =>
            obtain ⟨author, video⟩ := av
            cases hu : extractVideoUrl video with
            | error e => simp [extractVideoDataFromJson, hd, hi, ha, hu] at h
            | ok u =>
              simp only [extractVideoDataFromJson, hd, hi, ha, hu,
                Option.some.injEq] at h
              exact ⟨u, by rw [← h]⟩
  · intro env url tz parseRes hf
    cases he : extractVideoDataFromJson parseRes with
    | some vd =>
      have hp : pagePrimaryData (PagePrimary.raw parseRes) = some vd := by
        simp [pagePrimaryData, he]
      rw [processVideoPost_primary env url tz _ vd hf hp, directRun_apiCalls]
      simp [he]
    | none =>
      have hp : pagePrimaryData (PagePrimary.raw parseRes) = none := by
        simp [pagePrimaryData, he]
      rw [processVideoPost_fallback env url tz _ hf hp, apiFallbackRun_apiCalls]
      simp [he]

/-- C10, witness: the theorem applied to a page whose embedded JSON is
malformed — extraction yields `null` and the fallback is called once. -/
theorem c10_witness :
    (processVideoPost c10Env "u" 0).apiCalls = 1 ↔
      extractVideoDataFromJson (Except.error ()) = none :=
  c10_extractor_total_null_signal.2 c10Env "u" 0 (Except.error ()) rfl

/-! ## C2 — the URL validator -/

/-- C2, counterexample: `TIKTOK_URL_REGEX` anchors only the start of the
host text, and `\/?(.*)$` accepts any remainder, so a URL whose host merely
begins with the characters `tiktok.com` — here `tiktok.community` — is
accepted even though its host is none of `tiktok.com`, `www.tiktok.com`,
`vm.tiktok.com`. -/
theorem c2_counterexample :
    validateURLJs (JsInput.str "https://tiktok.community/@user/video/1") = true ∧
    urlHost "https://tiktok.community/@user/video/1" = some "tiktok.community" ∧
    "tiktok.community" ∉ (["tiktok.com", "www.tiktok.com", "vm.tiktok.com"] : List String) := by
  refine ⟨rfl, rfl, by decide⟩

/-- C2, amended: `validate` accepts exactly the strings built from a scheme
`http://` or `https://`, an optional `www.` or `vm.` subdomain label, the
literal text `tiktok.com`, and an arbitrary line-terminator-free suffix —
in particular every valid post URL on the three accepted hosts — and
rejects non-strings and the empty string; but a host that merely extends
`tiktok.com` also matches, so not every unrelated-host string is
rejected. -/
theorem c2_validate_characterization :
    ∀ inp : JsInput, validateURLJs inp = true ↔
      ∃ (scheme sub : String) (rest : List Char),
        scheme ∈ (["http://", "https://"] : List String) ∧
        sub ∈ (["", "www.", "vm."] : List String) ∧
        (∃ s : String, inp = JsInput.str s ∧
          s.data = (scheme ++ sub ++ "tiktok.com").data ++ rest) ∧
        lineTermFree rest = true := by
  intro inp
  cases inp with
  | nonString => simp [validateURLJs]
  | str s =>
    simp only [validateURLJs]
    constructor
    · intro h
      unfold validateURL at h
      by_cases hs : s = ""
      · rw [if_pos hs] at h
        exact absurd h (by simp)
      · rw [if_neg hs] at h
        unfold tiktokURLRegexTest at h
        simp only [List.any_eq_true] at h
        obtain ⟨scheme, hscheme, sub, hsub, hanch⟩ := h
        obtain ⟨rest, hdata, hlt⟩ := (anchoredTest_iff _ s).mp hanch
        exact ⟨scheme, sub, rest, hscheme, hsub, ⟨s, rfl, hdata⟩, hlt⟩
    · rintro ⟨scheme, sub, rest, hscheme, hsub, ⟨s', hinj, hdata⟩, hlt⟩
      have hss : s' = s := by
        injection hinj with h0
        exact h0.symm
      subst hss
      have hscheme' : scheme = "http://" ∨ scheme = "https://" := by
        simpa using hscheme
      have hsub' : sub = "" ∨ sub = "www." ∨ sub = "vm." := by
        simpa using hsub
      have hsne : s' ≠ "" := by
        intro h0
        subst h0
        have h1 : (scheme ++ sub ++ "tiktok.com").data ++ rest = [] := hdata.symm
        obtain ⟨h2, -⟩ := List.append_eq_nil.mp h1
        rcases hscheme' with rfl | rfl <;> rcases hsub' with rfl | rfl | rfl <;>
          exact absurd h2 (by decide)
      unfold validateURL
      rw [if_neg hsne]
      unfold tiktokURLRegexTest
      simp only [List.any_eq_true]
      exact ⟨scheme, hscheme, sub, hsub, (anchoredTest_iff _ _).mpr ⟨rest, hdata, hlt⟩⟩

/-! ## Lemmas for the batch orchestrator -/

theorem processPhotoPost_apiCalls (env : PhotoEnv) (url : String) (tz : Int) :
    (processPhotoPost env url tz).apiCalls = 1 := by
  unfold processPhotoPost
  (repeat' split) <;> rfl

theorem processVideoPost_apiCalls_of_fetch (env : VideoEnv) (url : String) (tz : Int)
    (page : PagePrimary) (hf : env.fetchHtml = Except.ok page) :
    (processVideoPost env url tz).apiCalls =
      if (pagePrimaryData page).isSome then 0 else 1 := by
  cases hp : pagePrimaryData page with
  | some vd =>
    rw [processVideoPost_primary env url tz page vd hf hp, directRun_apiCalls]
    simp [hp]
  | none =>
    rw [processVideoPost_fallback env url tz page hf hp, apiFallbackRun_apiCalls]
    simp [hp]

theorem processUrlsGo_length (all : List String) (envs : Nat → UrlEnv) (tz : Int) :
    ∀ (l : List String) (k : Nat), (processUrlsGo all envs tz k l).length = l.length := by
  intro l
  induction l with
  | nil => intro k; rfl
  | cons u rest ih =>
    intro k
    simp [processUrlsGo, ih (k + 1)]

theorem processUrlsGo_get (all : List String) (envs : Nat → UrlEnv) (tz : Int) :
    ∀ (l : List String) (k i : Nat),
      (processUrlsGo all envs tz k l).get? i =
        (l.get? i).map fun url => stepFor all envs tz (k + i) url := by
  intro l
  induction l with
  | nil => intro k i; simp [processUrlsGo]
  | cons u rest ih =>
    intro k i
    cases i with
    | zero => simp [processUrlsGo]
    | succ i =>
      simp only [processUrlsGo, List.get?_cons_succ]
      rw [ih (k + 1) i]
      have : k + 1 + i = k + (i + 1) := by omega
      rw [this]

theorem stepFor_valid (all : List String) (envs : Nat → UrlEnv) (tz : Int) (i : Nat)
    (url : String) (hv : validateURL url = true) :
    stepUrl (stepFor all envs tz i url) = url ∧
    stepIsInvalid (stepFor all envs tz i url) = false ∧
    stepDelayed (stepFor all envs tz i url) = decide (0 < List.indexOf url all) := by
  unfold stepFor
  rw [if_pos hv]
  by_cases hph : strIncludes url "/photo/" <;>
    simp [hph, stepUrl, stepIsInvalid, stepDelayed]

theorem stepFor_photo (all : List String) (envs : Nat → UrlEnv) (tz : Int) (i : Nat)
    (url : String) (hv : validateURL url = true)
    (hph : strIncludes url "/photo/" = true) :
    stepFor all envs tz i url = Step.photo url (decide (0 < List.indexOf url all))
      (processPhotoPost (envs i).photoEnv url tz) := by
  unfold stepFor
  rw [if_pos hv]
  simp [hph]

theorem stepFor_video (all : List String) (envs : Nat → UrlEnv) (tz : Int) (i : Nat)
    (url : String) (hv : validateURL url = true)
    (hph : strIncludes url "/photo/" = false) :
    stepFor all envs tz i url = Step.video url (decide (0 < List.indexOf url all))
      (processVideoPost (envs i).videoEnv url tz) := by
  unfold stepFor
  rw [if_pos hv]
  simp [hph]

theorem processUrls_get (urls : List String) (envs : Nat → UrlEnv) (tz : Int)
    (i : Nat) (url : String) (hi : urls.get? i = some url) :
    (processUrls urls envs tz).get? i = some (stepFor urls envs tz i url) := by
  rw [processUrls, processUrlsGo_get urls envs tz urls 0 i, hi]
  simp

/-! ## C6 — per-URL failures never abort the batch -/

/-- C6: the batch trace has one entry per input URL whatever the
environments (so no URL's failure can abort the batch), and every valid URL
at any position is processed (routed to a flow, not rejected), regardless of
how any other URL's processing turned out. -/
theorem c6_batch_continues :
    ∀ (urls : List String) (envs : Nat → UrlEnv) (tz : Int),
      (processUrls urls envs tz).length = urls.length ∧
      ∀ (i : Nat) (url : String), urls.get? i = some url → validateURL url = true →
        ∃ st : Step, (processUrls urls envs tz).get? i = some st ∧
          stepUrl st = url ∧ stepIsInvalid st = false := by
  intro urls envs tz
  constructor
  · exact processUrlsGo_length urls envs tz urls 0
  · intro i url hi hv
    obtain ⟨h1, h2, -⟩ := stepFor_valid urls envs tz i url hv
    exact ⟨stepFor urls envs tz i url, processUrls_get urls envs tz i url hi, h1, h2⟩

/-- C6, witness: in the four-URL batch whose second entry is not a TikTok
URL, the third URL is still processed. -/
theorem c6_witness :
    ∃ st : Step, (processUrls c6Urls batchEnvs 0).get? 2 = some st ∧
      stepUrl st = "https://www.tiktok.com/@user3/photo/3333" ∧
      stepIsInvalid st = false :=
  (c6_batch_continues c6Urls batchEnvs 0).2 2
    "https://www.tiktok.com/@user3/photo/3333" rfl rfl

/-! ## C8 — routing by the photo marker -/

/-- C8: a valid URL containing `"/photo/"` is routed to the photo flow,
which calls the fallback API exactly once on every run and never consults
the primary extractor (its run is a function of the API and image-fetch
outcomes alone); every other valid URL is routed to the video flow, which
consults the primary extractor first and calls the fallback API exactly when
primary extraction produced nothing. -/
theorem c8_routing :
    ∀ (urls : List String) (envs : Nat → UrlEnv) (tz : Int) (i : Nat) (url : String),
      urls.get? i = some url → validateURL url = true →
      (strIncludes url "/photo/" = true →
        (processUrls urls envs tz).get? i = some (Step.photo url
          (decide (0 < List.indexOf url urls))
          (processPhotoPost (envs i).photoEnv url tz)) ∧
        (processPhotoPost (envs i).photoEnv url tz).apiCalls = 1) ∧
      (strIncludes url "/photo/" = false →
        (processUrls urls envs tz).get? i = some (Step.video url
          (decide (0 < List.indexOf url urls))
          (processVideoPost (envs i).videoEnv url tz)) ∧
        ∀ page : PagePrimary, (envs i).videoEnv.fetchHtml = Except.ok page →
          (processVideoPost (envs i).videoEnv url tz).apiCalls =
            if (pagePrimaryData page).isSome then 0 else 1) := by
  intro urls envs tz i url hi hv
  have hget := processUrls_get urls envs tz i url hi
  constructor
  · intro hph
    refine ⟨?_, processPhotoPost_apiCalls _ _ _⟩
    rw [hget, stepFor_photo urls envs tz i url hv hph]
  · intro hph
    refine ⟨?_, ?_⟩
    · rw [hget, stepFor_video urls envs tz i url hv hph]
    · intro page hfp
      exact processVideoPost_apiCalls_of_fetch _ _ _ page hfp

/-- C8, witness: the theorem applied to a singleton batch holding a photo
URL. -/
theorem c8_witness :
    (processUrls c8Urls batchEnvs 0).get? 0 = some (Step.photo c8PhotoUrl
      (decide (0 < List.indexOf c8PhotoUrl c8Urls))
      (processPhotoPost (batchEnvs 0).photoEnv c8PhotoUrl 0)) ∧
    (processPhotoPost (batchEnvs 0).photoEnv c8PhotoUrl 0).apiCalls = 1 :=
  (c8_routing c8Urls batchEnvs 0 0 c8PhotoUrl rfl rfl).1 rfl

/-! ## C9 — the pacing delay and duplicate URLs -/

/-- C9, counterexample: in a batch holding the same valid URL twice, the
delay before position 1 does not run: the code tests
`urls.indexOf(url) > 0`, which is the URL's first occurrence, 0 here — yet
position 1 is processed.  So the delay is not inserted before every
processed URL except the first. -/
theorem c9_counterexample :
    ((processUrls c9Urls batchEnvs 0).get? 1).map stepDelayed = some false ∧
    ((processUrls c9Urls batchEnvs 0).get? 1).map stepIsInvalid = some false := by
  exact ⟨rfl, rfl⟩

/-- C9, amended: for every processed URL, the delay runs exactly when the
URL's first occurrence in the batch is at a positive index
(`urls.indexOf(url) > 0`); this is independent of the environments — hence
of any earlier outcome — and for batches of pairwise distinct URLs it means
a delay before every URL except the first. -/
theorem c9_delay_first_occurrence :
    ∀ (urls : List String) (envs : Nat → UrlEnv) (tz : Int) (i : Nat) (url : String),
      urls.get? i = some url → validateURL url = true →
      ∃ st : Step, (processUrls urls envs tz).get? i = some st ∧
        stepIsInvalid st = false ∧
        stepDelayed st = decide (0 < List.indexOf url urls) := by
  intro urls envs tz i url hi hv
  obtain ⟨-, h2, h3⟩ := stepFor_valid urls envs tz i url hv
  exact ⟨stepFor urls envs tz i url, processUrls_get urls envs tz i url hi, h2, h3⟩

/-- C9, witness: in a batch of two distinct URLs the second is processed and
its delay indicator equals the first-occurrence test. -/
theorem c9_witness :
    ∃ st : Step, (processUrls c9UrlsB batchEnvs 0).get? 1 = some st ∧
      stepIsInvalid st = false ∧
      stepDelayed st =
        decide (0 < List.indexOf "https://www.tiktok.com/@b/video/2" c9UrlsB) :=
  c9_delay_first_occurrence c9UrlsB batchEnvs 0 1
    "https://www.tiktok.com/@b/video/2" rfl rfl
